import Mathlib

/-!
Verification of the humanoid-robot animation repository.

JavaScript numbers are embedded as exact rationals (ℚ); IEEE-754 rounding is
outside the model.  `Math.PI` is embedded as the exact rational value of the
double-precision constant, and the JS remainder operator `%` (sign of the
dividend, truncated quotient) is embedded as `jsMod`.  Animation code that
calls `Math.sin` is parametrised by an arbitrary function `sn : ℚ → ℚ`
standing for the library sine.
-/

/-- Exact rational value of the IEEE-754 double `Math.PI`
(3.141592653589793, i.e. 884279719003555 / 2^48). -/
def jsPI : ℚ := 884279719003555 / 281474976710656

/-- Truncation toward zero, the rounding used by the JS `%` operator. -/
def truncTowardZero (q : ℚ) : ℤ := if q < 0 then -(⌊-q⌋) else ⌊q⌋

/-- The JS remainder operator `a % b`: `a - b * trunc(a / b)`.  The result has
the sign of the dividend `a`.  (For `b = 0` JS yields NaN; in this rational
model the Lean convention `a / 0 = 0` makes `jsMod a 0 = a`; no claim relies
on that case.) -/
def jsMod (a b : ℚ) : ℚ := a - b * (truncTowardZero (a / b) : ℚ)

/-- `cubicBezier(p0, p1, p2, p3, t)` from 2.5-gait-engine.js: the Bernstein
cubic blend of four scalar control values. -/
def cubicBezier (p0 p1 p2 p3 t : ℚ) : ℚ :=
  ((1 - t) * (1 - t) * (1 - t)) * p0 +
    (3 * (1 - t) * (1 - t) * t) * p1 +
    (3 * (1 - t) * t * t) * p2 +
    (t * t * t) * p3

/-- A control point `{x, y}` of a Bézier curve. -/
structure ControlPoint where
  x : ℚ
  y : ℚ
deriving DecidableEq

/-- A gait curve: an array of exactly 4 control points. -/
structure Curve where
  p0 : ControlPoint
  p1 : ControlPoint
  p2 : ControlPoint
  p3 : ControlPoint
deriving DecidableEq

/-- `LowerLegEngine.evalCurve(curve, phase)`: evaluates the x- and
y-components of the 4-control-point curve at the given phase.  (The method
reads no instance state, so it is a plain function here.) -/
def evalCurve (curve : Curve) (phase : ℚ) : ControlPoint :=
  { x := cubicBezier curve.p0.x curve.p1.x curve.p2.x curve.p3.x phase,
    y := cubicBezier curve.p0.y curve.p1.y curve.p2.y curve.p3.y phase }

/-- Per-leg output record `{hip, knee, ankle}` of the gait engine. -/
structure LegAngles where
  hip : ℚ
  knee : ℚ
  ankle : ℚ
deriving DecidableEq

/-- Output of `getLowerLegAngles`: both leg records plus the body height. -/
structure GaitSample where
  left_leg : LegAngles
  right_leg : LegAngles
  bodyHeight : ℚ
deriving DecidableEq

/-- The state of a `LowerLegEngine` instance: cycle time, the four
control-point tables and the four amplitudes, all set in the constructor and
never reassigned. -/
structure LowerLegEngine where
  cycleTime : ℚ
  kneeCurve : Curve
  ankleCurve : Curve
  hipCurve : Curve
  heightCurve : Curve
  kneeAmp : ℚ
  ankleAmp : ℚ
  hipAmp : ℚ
  heightAmp : ℚ
deriving DecidableEq

/-- The `LowerLegEngine` constructor (2.5-gait-engine.js lines 27-69).  It
stores `cycleTime` and the fixed curve/amplitude tables; it performs no
validation of `cycleTime` whatsoever. -/
def LowerLegEngine.construct (cycleTime : ℚ) : LowerLegEngine :=
  { cycleTime := cycleTime,
    kneeCurve := ⟨⟨-0.9, 0.0⟩, ⟨-0.4, 0.6⟩, ⟨0.6, 0.6⟩, ⟨0.9, 0.0⟩⟩,
    ankleCurve := ⟨⟨-0.9, 0.0⟩, ⟨-0.6, 0.4⟩, ⟨0.3, 0.7⟩, ⟨0.9, 0.0⟩⟩,
    hipCurve := ⟨⟨-0.9, -0.5⟩, ⟨-0.8, -0.3⟩, ⟨0.3, 0.3⟩, ⟨0.9, 0.5⟩⟩,
    heightCurve := ⟨⟨-0.9, 0.0⟩, ⟨-0.3, -0.15⟩, ⟨0.3, -0.15⟩, ⟨0.9, 0.0⟩⟩,
    kneeAmp := 55,
    ankleAmp := 25,
    hipAmp := 50,
    heightAmp := 0.08 }

/-- Modelled from the spec: "cycleTime must be > 0 (construction-time
precondition; a zero or negative cycle time must fail fast with a
configuration error)".  The source constructor (2.5-gait-engine.js line 27)
performs no such check; this definition follows the spec's wording so the two
behaviours can be compared. -/
def LowerLegEngine.constructChecked (cycleTime : ℚ) : Option LowerLegEngine :=
  if 0 < cycleTime then some (LowerLegEngine.construct cycleTime) else none

/-- The global engine instance `new LowerLegEngine(1.0)` (line 153). -/
def gaitEngine : LowerLegEngine := LowerLegEngine.construct 1.0

/-- `LowerLegEngine.getPhase(t, offset)`: `((t + offset) % cycleTime) /
cycleTime` with the JS remainder. -/
def LowerLegEngine.getPhase (e : LowerLegEngine) (t offset : ℚ) : ℚ :=
  jsMod (t + offset) e.cycleTime / e.cycleTime

/-- `LowerLegEngine.getLowerLegAngles(t)` (lines 113-149): evaluates the four
curves at the left-leg phase (offset 0) and the right-leg phase (offset
`cycleTime / 2`), scales by the amplitudes and `Math.PI / 180`, and averages
the two height-curve values. -/
def LowerLegEngine.getLowerLegAngles (e : LowerLegEngine) (t : ℚ) : GaitSample :=
  let phaseL := e.getPhase t 0
  let phaseR := e.getPhase t (e.cycleTime / 2)
  let hipL := evalCurve e.hipCurve phaseL
  let kneeL := evalCurve e.kneeCurve phaseL
  let ankleL := evalCurve e.ankleCurve phaseL
  let hipR := evalCurve e.hipCurve phaseR
  let kneeR := evalCurve e.kneeCurve phaseR
  let ankleR := evalCurve e.ankleCurve phaseR
  let heightL := evalCurve e.heightCurve phaseL
  let heightR := evalCurve e.heightCurve phaseR
  let bodyHeight := ((heightL.y + heightR.y) / 2) * e.heightAmp
  { left_leg :=
      { hip := (hipL.y * e.hipAmp) * (jsPI / 180),
        knee := (kneeL.y * e.kneeAmp) * (jsPI / 180),
        ankle := (ankleL.y * e.ankleAmp) * (jsPI / 180) },
    right_leg :=
      { hip := (hipR.y * e.hipAmp) * (jsPI / 180),
        knee := (kneeR.y * e.kneeAmp) * (jsPI / 180),
        ankle := (ankleR.y * e.ankleAmp) * (jsPI / 180) },
    bodyHeight := bodyHeight }

/-- A method call `engine.getLowerLegAngles(t)` with the instance state
threaded explicitly: the method body only reads `this`, never assigns to it,
so the post-call state is the pre-call state. -/
def LowerLegEngine.getLowerLegAnglesCall (e : LowerLegEngine) (t : ℚ) :
    GaitSample × LowerLegEngine :=
  (e.getLowerLegAngles t, e)

/-- A per-axis rotation limit `{min, max}`. -/
structure MinMax where
  min : ℚ
  max : ℚ
deriving DecidableEq

/-- The `jointConstraints` table of `HumanoidRobot` (2-robot-class.js lines
115-128). -/
structure JointConstraints where
  hipX : MinMax
  hipY : MinMax
  hipZ : MinMax
  kneeX : MinMax
  ankleX : MinMax
  ankleZ : MinMax
  shoulderX : MinMax
  shoulderY : MinMax
  shoulderZ : MinMax
  elbowX : MinMax
  neckX : MinMax
  neckY : MinMax
deriving DecidableEq

/-- The concrete limits configured in the `HumanoidRobot` constructor. -/
def jointConstraints : JointConstraints :=
  { hipX := ⟨-1.0, 1.0⟩,
    hipY := ⟨-0.3, 0.3⟩,
    hipZ := ⟨-0.3, 0.3⟩,
    kneeX := ⟨0, 2.5⟩,
    ankleX := ⟨-0.5, 0.8⟩,
    ankleZ := ⟨-0.3, 0.3⟩,
    shoulderX := ⟨-2.8, 2.8⟩,
    shoulderY := ⟨-1.0, 1.0⟩,
    shoulderZ := ⟨-1.5, 1.5⟩,
    elbowX := ⟨0, 2.8⟩,
    neckX := ⟨-0.5, 0.5⟩,
    neckY := ⟨-1.2, 1.2⟩ }

/-- The clamp applied by `HumanoidRobot.constrainJoint` to one axis value:
`Math.max(minMax.min, Math.min(minMax.max, rotation))`. -/
def constrainValue (rotation : ℚ) (minMax : MinMax) : ℚ :=
  max minMax.min (min minMax.max rotation)

/-- The mutable state of the robot that the animation code reads or writes:
one field per joint-axis rotation touched by `applyConstraints`, `resetPose`
or an animation function, plus the torso local y-position and the root
transform components that are written.  Axes of the Three.js scene graph
never read or written by this code (for example `neck.rotation.z` outside
`resetPose`, or the hip group rotations) are omitted. -/
structure RobotPose where
  neckRx : ℚ
  neckRy : ℚ
  torsoPosY : ℚ
  leftUpperLegRx : ℚ
  leftUpperLegRy : ℚ
  leftUpperLegRz : ℚ
  rightUpperLegRx : ℚ
  rightUpperLegRy : ℚ
  rightUpperLegRz : ℚ
  leftKneeRx : ℚ
  rightKneeRx : ℚ
  leftAnkleRx : ℚ
  leftAnkleRz : ℚ
  rightAnkleRx : ℚ
  rightAnkleRz : ℚ
  leftUpperArmRx : ℚ
  leftUpperArmRz : ℚ
  rightUpperArmRx : ℚ
  rightUpperArmRz : ℚ
  leftLowerArmRx : ℚ
  rightLowerArmRx : ℚ
  rootPosX : ℚ
  rootPosY : ℚ
  rootPosZ : ℚ
  rootRotX : ℚ
deriving DecidableEq

/-- The pose right after `buildRobot()`: every rotation and the root
transform are zero; the torso mesh is placed at local y = 1.6. -/
def initialPose : RobotPose :=
  { neckRx := 0, neckRy := 0, torsoPosY := 1.6,
    leftUpperLegRx := 0, leftUpperLegRy := 0, leftUpperLegRz := 0,
    rightUpperLegRx := 0, rightUpperLegRy := 0, rightUpperLegRz := 0,
    leftKneeRx := 0, rightKneeRx := 0,
    leftAnkleRx := 0, leftAnkleRz := 0, rightAnkleRx := 0, rightAnkleRz := 0,
    leftUpperArmRx := 0, leftUpperArmRz := 0,
    rightUpperArmRx := 0, rightUpperArmRz := 0,
    leftLowerArmRx := 0, rightLowerArmRx := 0,
    rootPosX := 0, rootPosY := 0, rootPosZ := 0, rootRotX := 0 }

/-- `HumanoidRobot.applyConstraints` (2-robot-class.js lines 520-553):
clamps exactly the enumerated joint/axis pairs — hips x/y/z, knees x,
ankles x/z, shoulders x/z, elbows x, neck x/y — and nothing else. -/
def applyConstraints (p : RobotPose) : RobotPose :=
  { p with
    leftUpperLegRx := constrainValue p.leftUpperLegRx jointConstraints.hipX,
    leftUpperLegRy := constrainValue p.leftUpperLegRy jointConstraints.hipY,
    leftUpperLegRz := constrainValue p.leftUpperLegRz jointConstraints.hipZ,
    rightUpperLegRx := constrainValue p.rightUpperLegRx jointConstraints.hipX,
    rightUpperLegRy := constrainValue p.rightUpperLegRy jointConstraints.hipY,
    rightUpperLegRz := constrainValue p.rightUpperLegRz jointConstraints.hipZ,
    leftKneeRx := constrainValue p.leftKneeRx jointConstraints.kneeX,
    rightKneeRx := constrainValue p.rightKneeRx jointConstraints.kneeX,
    leftAnkleRx := constrainValue p.leftAnkleRx jointConstraints.ankleX,
    leftAnkleRz := constrainValue p.leftAnkleRz jointConstraints.ankleZ,
    rightAnkleRx := constrainValue p.rightAnkleRx jointConstraints.ankleX,
    rightAnkleRz := constrainValue p.rightAnkleRz jointConstraints.ankleZ,
    leftUpperArmRx := constrainValue p.leftUpperArmRx jointConstraints.shoulderX,
    leftUpperArmRz := constrainValue p.leftUpperArmRz jointConstraints.shoulderZ,
    rightUpperArmRx := constrainValue p.rightUpperArmRx jointConstraints.shoulderX,
    rightUpperArmRz := constrainValue p.rightUpperArmRz jointConstraints.shoulderZ,
    leftLowerArmRx := constrainValue p.leftLowerArmRx jointConstraints.elbowX,
    rightLowerArmRx := constrainValue p.rightLowerArmRx jointConstraints.elbowX,
    neckRx := constrainValue p.neckRx jointConstraints.neckX,
    neckRy := constrainValue p.neckRy jointConstraints.neckY }

/-- `HumanoidRobot.resetPose` (2-robot-class.js lines 483-515): zeroes every
joint rotation and the root position/rotation.  It does not touch
`torso.position`. -/
def resetPose (p : RobotPose) : RobotPose :=
  { p with
    neckRx := 0, neckRy := 0,
    leftUpperLegRx := 0, leftUpperLegRy := 0, leftUpperLegRz := 0,
    rightUpperLegRx := 0, rightUpperLegRy := 0, rightUpperLegRz := 0,
    leftKneeRx := 0, rightKneeRx := 0,
    leftAnkleRx := 0, leftAnkleRz := 0, rightAnkleRx := 0, rightAnkleRz := 0,
    leftUpperArmRx := 0, leftUpperArmRz := 0,
    rightUpperArmRx := 0, rightUpperArmRz := 0,
    leftLowerArmRx := 0, rightLowerArmRx := 0,
    rootPosX := 0, rootPosY := 0, rootPosZ := 0, rootRotX := 0 }

/-- `idleAnimation(robot, t)` (3-animations.js lines 6-13).  `sn` stands for
`Math.sin`. -/
def idleAnimation (sn : ℚ → ℚ) (p : RobotPose) (t : ℚ) : RobotPose :=
  applyConstraints
    { p with
      torsoPosY := 1.6 + sn (t * 2) * 0.03,
      neckRx := sn (t * 1.5) * 0.05 }

/-- `walkAnimation(robot, t)` (3-animations.js lines 16-42): samples the
global gait engine at `t * 0.6` and writes hips, knees, ankles (sign
inverted), root height and forward position, then applies constraints. -/
def walkAnimation (p : RobotPose) (t : ℚ) : RobotPose :=
  let gaitData := gaitEngine.getLowerLegAngles (t * 0.6)
  applyConstraints
    { p with
      leftUpperLegRx := gaitData.left_leg.hip,
      rightUpperLegRx := gaitData.right_leg.hip,
      leftKneeRx := gaitData.left_leg.knee,
      rightKneeRx := gaitData.right_leg.knee,
      leftAnkleRx := -gaitData.left_leg.ankle,
      rightAnkleRx := -gaitData.right_leg.ankle,
      rootPosY := gaitData.bodyHeight,
      rootPosZ := t * 0.3 }

/-- `runAnimation(robot, t)` (3-animations.js lines 45-65). -/
def runAnimation (sn : ℚ → ℚ) (p : RobotPose) (t : ℚ) : RobotPose :=
  let runSpeed : ℚ := 5
  let step := sn (t * runSpeed)
  let step2 := sn (t * runSpeed + jsPI)
  applyConstraints
    { p with
      leftUpperLegRx := step * 0.8,
      leftKneeRx := max 0 (-step * 1.2),
      leftAnkleRx := step * 0.5,
      rightUpperLegRx := step2 * 0.8,
      rightKneeRx := max 0 (-step2 * 1.2),
      rightAnkleRx := step2 * 0.5,
      rootRotX := -0.1,
      rootPosY := |sn (t * runSpeed * 2)| * 0.12,
      rootPosZ := t * 1.2 }

/-- `waveAnimation(robot, t)` (3-animations.js lines 68-76), the head-turn
animation. -/
def waveAnimation (sn : ℚ → ℚ) (p : RobotPose) (t : ℚ) : RobotPose :=
  let turnSpeed : ℚ := 2
  applyConstraints
    { p with
      neckRy := sn (t * turnSpeed) * 0.8,
      neckRx := sn (t * turnSpeed * 0.5) * 0.15 }

/-- `rotateBodyAnimation(robot, t)` (3-animations.js lines 79-97), the jump
animation. -/
def rotateBodyAnimation (sn : ℚ → ℚ) (p : RobotPose) (t : ℚ) : RobotPose :=
  let jumpSpeed : ℚ := 2
  let phase := jsMod (t * jumpSpeed) (jsPI * 2)
  let jumpHeight := max 0 (sn phase) * 0.3
  let kneeBend := max 0 (sn phase) * 0.5
  applyConstraints
    { p with
      rootPosY := jumpHeight,
      leftKneeRx := kneeBend,
      rightKneeRx := kneeBend,
      leftAnkleRx := -kneeBend * 0.5,
      rightAnkleRx := -kneeBend * 0.5 }

/-- The `switch (currentAnimation)` dispatch of `updateAnimation`
(5-animation-manager.js lines 29-36).  Case 5 calls `fingerCurlAnimation`,
which is defined nowhere in the repository, so reaching it throws a
`ReferenceError`, modelled as `none`; an index ≥ 6 matches no case and the
switch does nothing. -/
def animSwitch (sn : ℚ → ℚ) (n : ℕ) (p : RobotPose) (t : ℚ) : Option RobotPose :=
  match n with
  | 0 => some (idleAnimation sn p t)
  | 1 => some (walkAnimation p t)
  | 2 => some (runAnimation sn p t)
  | 3 => some (waveAnimation sn p t)
  | 4 => some (rotateBodyAnimation sn p t)
  | 5 => none
  | _ => some p

/-- The animation manager's module-level state (5-animation-manager.js lines
5-6) plus two instrumentation counters (not present in the source state)
recording how often each of the two `resetPose()` call sites of
`updateAnimation` has fired: `startResets` for the `animationTime < 0.05`
branch, `transitionResets` for the duration-reached transition branch. -/
structure AnimState where
  animationTime : ℚ
  currentAnimation : ℕ
  startResets : ℕ
  transitionResets : ℕ
deriving DecidableEq

/-- The fresh manager state: `animationTime = 0`, `currentAnimation = 0`. -/
def animInit : AnimState := ⟨0, 0, 0, 0⟩

/-- `animationDuration = 4` seconds per animation. -/
def animationDuration : ℚ := 4

/-- `updateAnimation(robot, deltaTime)` (5-animation-manager.js lines
17-44): accumulates the delta, reset-poses when the accumulated time is
still below 0.05, dispatches the current animation at the accumulated time,
and on reaching `animationDuration` zeroes the accumulator, advances the
animation index modulo 5 and reset-poses again. -/
def updateAnimation (sn : ℚ → ℚ) (s : AnimState) (p : RobotPose) (dt : ℚ) :
    Option (AnimState × RobotPose) :=
  let time := s.animationTime + dt
  let p1 := if time < 0.05 then resetPose p else p
  let sr := if time < 0.05 then s.startResets + 1 else s.startResets
  (animSwitch sn s.currentAnimation p1 time).map fun p2 =>
    if animationDuration ≤ time then
      ({ animationTime := 0, currentAnimation := (s.currentAnimation + 1) % 5,
         startResets := sr, transitionResets := s.transitionResets + 1 },
        resetPose p2)
    else
      ({ s with animationTime := time, startResets := sr }, p2)

/-- Runs `updateAnimation` over a list of successive frame deltas. -/
def updateRun (sn : ℚ → ℚ) : AnimState → RobotPose → List ℚ →
    Option (AnimState × RobotPose)
  | s, p, [] => some (s, p)
  | s, p, dt :: rest =>
    match updateAnimation sn s p dt with
    | none => none
    | some (s2, p2) => updateRun sn s2 p2 rest

/-- Membership of a value in a per-axis limit range. -/
def WithinLimit (x : ℚ) (m : MinMax) : Prop := m.min ≤ x ∧ x ≤ m.max

/-- Every joint axis that `applyConstraints` clamps (which includes every
joint axis any animation writes) is within its configured limit. -/
structure InLimits (p : RobotPose) : Prop where
  hipLx : WithinLimit p.leftUpperLegRx jointConstraints.hipX
  hipLy : WithinLimit p.leftUpperLegRy jointConstraints.hipY
  hipLz : WithinLimit p.leftUpperLegRz jointConstraints.hipZ
  hipRx : WithinLimit p.rightUpperLegRx jointConstraints.hipX
  hipRy : WithinLimit p.rightUpperLegRy jointConstraints.hipY
  hipRz : WithinLimit p.rightUpperLegRz jointConstraints.hipZ
  kneeL : WithinLimit p.leftKneeRx jointConstraints.kneeX
  kneeR : WithinLimit p.rightKneeRx jointConstraints.kneeX
  ankleLx : WithinLimit p.leftAnkleRx jointConstraints.ankleX
  ankleLz : WithinLimit p.leftAnkleRz jointConstraints.ankleZ
  ankleRx : WithinLimit p.rightAnkleRx jointConstraints.ankleX
  ankleRz : WithinLimit p.rightAnkleRz jointConstraints.ankleZ
  shoulderLx : WithinLimit p.leftUpperArmRx jointConstraints.shoulderX
  shoulderLz : WithinLimit p.leftUpperArmRz jointConstraints.shoulderZ
  shoulderRx : WithinLimit p.rightUpperArmRx jointConstraints.shoulderX
  shoulderRz : WithinLimit p.rightUpperArmRz jointConstraints.shoulderZ
  elbowL : WithinLimit p.leftLowerArmRx jointConstraints.elbowX
  elbowR : WithinLimit p.rightLowerArmRx jointConstraints.elbowX
  neckx : WithinLimit p.neckRx jointConstraints.neckX
  necky : WithinLimit p.neckRy jointConstraints.neckY

lemma within_constrain (x : ℚ) (m : MinMax) (h : m.min ≤ m.max) :
    WithinLimit (constrainValue x m) m :=
  ⟨le_max_left _ _, max_le h (min_le_left _ _)⟩

lemma inLimits_applyConstraints (p : RobotPose) : InLimits (applyConstraints p) := by
  constructor <;> exact within_constrain _ _ (by norm_num [jointConstraints])

lemma inLimits_resetPose (p : RobotPose) : InLimits (resetPose p) := by
  constructor <;> norm_num [WithinLimit, resetPose, jointConstraints]

lemma animSwitch_lt5 (sn : ℚ → ℚ) (n : ℕ) (p : RobotPose) (t : ℚ) (h : n < 5) :
    ∃ p2, animSwitch sn n p t = some p2 ∧ InLimits p2 := by
  interval_cases n
  · exact ⟨_, rfl, inLimits_applyConstraints _⟩
  · exact ⟨_, rfl, inLimits_applyConstraints _⟩
  · exact ⟨_, rfl, inLimits_applyConstraints _⟩
  · exact ⟨_, rfl, inLimits_applyConstraints _⟩
  · exact ⟨_, rfl, inLimits_applyConstraints _⟩

lemma updateAnimation_some (sn : ℚ → ℚ) (s : AnimState) (p : RobotPose) (dt : ℚ)
    (h : s.currentAnimation < 5) :
    ∃ r, updateAnimation sn s p dt = some r ∧ r.1.currentAnimation < 5 ∧ InLimits r.2 := by
  obtain ⟨p2, hp2, hl⟩ := animSwitch_lt5 sn s.currentAnimation
    (if s.animationTime + dt < 0.05 then resetPose p else p) (s.animationTime + dt) h
  simp only [updateAnimation]
  rw [hp2, Option.map_some']
  refine ⟨_, rfl, ?_, ?_⟩ <;> dsimp only <;> split_ifs <;>
    first
      | exact Nat.mod_lt _ (by norm_num)
      | exact h
      | exact inLimits_resetPose _
      | exact hl

lemma updateRun_lt5 (sn : ℚ → ℚ) :
    ∀ (deltas : List ℚ) (s : AnimState) (p : RobotPose),
      s.currentAnimation < 5 →
      ∃ r, updateRun sn s p deltas = some r ∧ r.1.currentAnimation < 5
  | [], s, p, h => ⟨(s, p), rfl, h⟩
  | dt :: rest, s, p, h => by
    obtain ⟨r1, hr1, hlt, -⟩ := updateAnimation_some sn s p dt h
    obtain ⟨s1, p1⟩ := r1
    obtain ⟨r2, hr2, hlt2⟩ := updateRun_lt5 sn rest s1 p1 hlt
    exact ⟨r2, by simp only [updateRun]; rw [hr1]; exact hr2, hlt2⟩

/-- C1: for every engine and every time t, the right-leg phase
`getPhase(t, cycleTime/2)` used by `getLowerLegAngles` equals
`getPhase(t + cycleTime/2, 0)` — exact half-cycle antiphase — and for the
cycleTime-1.0 engine the left-leg record of the sample at t = 0.5 equals the
right-leg record of the sample at t = 0.0. -/
theorem claim_C1_half_cycle_antiphase :
    (∀ (e : LowerLegEngine) (t : ℚ),
        e.getPhase t (e.cycleTime / 2) = e.getPhase (t + e.cycleTime / 2) 0) ∧
      (gaitEngine.getLowerLegAngles 0.5).left_leg =
        (gaitEngine.getLowerLegAngles 0.0).right_leg := by
  constructor
  · intro e t
    simp [LowerLegEngine.getPhase]
  · norm_num [gaitEngine, LowerLegEngine.construct, LowerLegEngine.getLowerLegAngles,
      LowerLegEngine.getPhase, jsMod, truncTowardZero, evalCurve, cubicBezier]

/-- C2 counterexample: at the negative time t = -1/2 (cycleTime 1, offset 0)
the JS remainder is negative, so `getPhase` returns -1/2, which is not in
[0, 1) — refuting the claim for negative times. -/
theorem claim_C2_counterexample :
    gaitEngine.getPhase (-(1/2)) 0 = -(1/2) ∧
      ¬(0 ≤ gaitEngine.getPhase (-(1/2)) 0) := by
  norm_num [gaitEngine, LowerLegEngine.construct, LowerLegEngine.getPhase, jsMod,
    truncTowardZero]

/-- C2 (amended): for an engine with positive cycleTime, `getPhase(t, offset)`
lies in [0, 1) whenever t + offset ≥ 0; for negative t + offset the JS `%`
returns a negative remainder (see the counterexample). -/
theorem claim_C2_phase_in_unit_interval (e : LowerLegEngine) (t offset : ℚ)
    (hc : 0 < e.cycleTime) (ha : 0 ≤ t + offset) :
    0 ≤ e.getPhase t offset ∧ e.getPhase t offset < 1 := by
  have hc0 : e.cycleTime ≠ 0 := ne_of_gt hc
  have hq : 0 ≤ (t + offset) / e.cycleTime := div_nonneg ha hc.le
  have key : e.getPhase t offset = Int.fract ((t + offset) / e.cycleTime) := by
    simp only [LowerLegEngine.getPhase, jsMod, truncTowardZero,
      if_neg (not_lt.mpr hq)]
    rw [sub_div, mul_div_cancel_left₀ _ hc0]
    rfl
  rw [key]
  exact ⟨Int.fract_nonneg _, Int.fract_lt_one _⟩

/-- Witness for the amended C2 at the concrete engine (cycleTime 1) and
t = 1/3, offset 0. -/
theorem claim_C2_phase_in_unit_interval_witness :
    0 < gaitEngine.cycleTime ∧ 0 ≤ (1/3 : ℚ) + 0 ∧
      (0 ≤ gaitEngine.getPhase (1/3) 0 ∧ gaitEngine.getPhase (1/3) 0 < 1) :=
  ⟨by norm_num [gaitEngine, LowerLegEngine.construct], by norm_num,
    claim_C2_phase_in_unit_interval gaitEngine (1/3) 0
      (by norm_num [gaitEngine, LowerLegEngine.construct]) (by norm_num)⟩

/-- C3 counterexample: constructing the engine with cycleTime 0 does not
fail — it returns a full engine instance (equal to the global engine except
for the stored cycleTime 0) — whereas the spec-modelled checked constructor
rejects 0.  The constructor has no validation at all. -/
theorem claim_C3_counterexample :
    LowerLegEngine.construct 0 = { gaitEngine with cycleTime := 0 } ∧
      (LowerLegEngine.construct 0).cycleTime = 0 ∧
      LowerLegEngine.constructChecked 0 = none := by
  refine ⟨rfl, rfl, ?_⟩
  norm_num [LowerLegEngine.constructChecked]

/-- C3 (amended): the constructor accepts any cycleTime — including zero and
negative values — storing it unchanged and producing an engine instance
whose curve and amplitude tables are the fixed defaults; construction never
fails. -/
theorem claim_C3_construct_never_fails (c : ℚ) :
    (LowerLegEngine.construct c).cycleTime = c ∧
      { LowerLegEngine.construct c with cycleTime := 1.0 } = gaitEngine :=
  ⟨rfl, rfl⟩

/-- C4: for every 4-control-point curve, the evaluator at phase 0 returns
exactly the first control point's y-component and at phase 1 exactly the
last control point's y-component. -/
theorem claim_C4_boundary_interpolation (curve : Curve) :
    (evalCurve curve 0).y = curve.p0.y ∧ (evalCurve curve 1).y = curve.p3.y := by
  constructor <;> norm_num [evalCurve, cubicBezier]

/-- C5: the per-axis joint clamp returns `max(L.min, min(L.max, x))`, is
idempotent, and with limit {min 0, max 2.5} maps -1, 0, 1.3, 5 to
0, 0, 1.3, 2.5. -/
theorem claim_C5_clamp_formula_idempotent (x : ℚ) (L : MinMax) :
    constrainValue x L = max L.min (min L.max x) ∧
      constrainValue (constrainValue x L) L = constrainValue x L ∧
      constrainValue (-1) ⟨0, 2.5⟩ = 0 ∧
      constrainValue 0 ⟨0, 2.5⟩ = 0 ∧
      constrainValue 1.3 ⟨0, 2.5⟩ = 1.3 ∧
      constrainValue 5 ⟨0, 2.5⟩ = 2.5 := by
  refine ⟨rfl, ?_, by norm_num [constrainValue, max_def, min_def],
    by norm_num [constrainValue, max_def, min_def],
    by norm_num [constrainValue, max_def, min_def],
    by norm_num [constrainValue, max_def, min_def]⟩
  simp only [constrainValue, max_def, min_def]
  split_ifs <;> first | rfl | linarith

/-- C6: a single `updateAnimation` step in any of the five animation modes,
from any prior pose, any accumulated time and any delta, succeeds and leaves
every clamped joint axis — which includes every joint axis any animation
writes — within its configured limit; in particular the clamped knee and
elbow bends are ≥ 0. -/
theorem claim_C6_update_clamped (sn : ℚ → ℚ) (m : Fin 5) (t0 dt : ℚ)
    (sr tr : ℕ) (p : RobotPose) :
    ∃ r, updateAnimation sn ⟨t0, m.val, sr, tr⟩ p dt = some r ∧ InLimits r.2 ∧
      0 ≤ r.2.leftKneeRx ∧ 0 ≤ r.2.rightKneeRx ∧
      0 ≤ r.2.leftLowerArmRx ∧ 0 ≤ r.2.rightLowerArmRx := by
  obtain ⟨r, hr, -, hl⟩ := updateAnimation_some sn ⟨t0, m.val, sr, tr⟩ p dt m.isLt
  exact ⟨r, hr, hl, hl.kneeL.1, hl.kneeR.1, hl.elbowL.1, hl.elbowR.1⟩

/-- C7: a `getLowerLegAngles` call leaves the engine state unchanged, and
two successive calls with the same t return identical output records. -/
theorem claim_C7_sampling_pure (e : LowerLegEngine) (t : ℚ) :
    (e.getLowerLegAnglesCall t).2 = e ∧
      ((e.getLowerLegAnglesCall t).2.getLowerLegAnglesCall t).2 = e ∧
      (e.getLowerLegAnglesCall t).1 =
        ((e.getLowerLegAnglesCall t).2.getLowerLegAnglesCall t).1 :=
  ⟨rfl, rfl, rfl⟩

/-- C8: starting the manager fresh and advancing by 16 deltas of 0.25 s ends
with accumulator 0, mode index 1 (Idle → Walk, i.e. (0 + 1) % 5), zero
early-frame resets and exactly one transition (with its resetPose call). -/
theorem claim_C8_sixteen_frames_one_transition :
    (updateRun (fun _ => 0) animInit initialPose (List.replicate 16 0.25)).map
        (fun r => (r.1.animationTime, r.1.currentAnimation, r.1.startResets,
          r.1.transitionResets)) = some (0, 1, 0, 1) := by
  norm_num [updateRun, updateAnimation, animSwitch, idleAnimation, applyConstraints,
    constrainValue, resetPose, animInit, initialPose, animationDuration,
    jointConstraints, List.replicate, max_def, min_def]

/-- C9: from the initial manager state, after any sequence of frame updates
the current-animation index stays below 5, and every update succeeds — the
case-5 dispatch branch (the nowhere-defined `fingerCurlAnimation`, modelled
as `none`) is never reached. -/
theorem claim_C9_dispatch_five_unreachable (sn : ℚ → ℚ) (deltas : List ℚ) :
    ∃ r, updateRun sn animInit initialPose deltas = some r ∧
      r.1.currentAnimation < 5 :=
  updateRun_lt5 sn deltas animInit initialPose (by norm_num [animInit])

/-- C10: `resetPose` zeroes the joint rotations and the root transform but
leaves the torso's local position unchanged, so the torso height written by
`idleAnimation` (1.6 + breathe) survives a subsequent `resetPose`. -/
theorem claim_C10_torso_offset_persists (sn : ℚ → ℚ) (p q : RobotPose) (t : ℚ) :
    (resetPose (idleAnimation sn p t)).torsoPosY = 1.6 + sn (t * 2) * 0.03 ∧
      (resetPose q).torsoPosY = q.torsoPosY ∧
      (resetPose q).neckRx = 0 ∧ (resetPose q).neckRy = 0 ∧
      (resetPose q).leftUpperLegRx = 0 ∧ (resetPose q).rightUpperLegRx = 0 ∧
      (resetPose q).leftKneeRx = 0 ∧ (resetPose q).rightKneeRx = 0 ∧
      (resetPose q).leftAnkleRx = 0 ∧ (resetPose q).rightAnkleRx = 0 ∧
      (resetPose q).leftUpperArmRx = 0 ∧ (resetPose q).rightUpperArmRx = 0 ∧
      (resetPose q).leftLowerArmRx = 0 ∧ (resetPose q).rightLowerArmRx = 0 ∧
      (resetPose q).rootPosX = 0 ∧ (resetPose q).rootPosY = 0 ∧
      (resetPose q).rootPosZ = 0 ∧ (resetPose q).rootRotX = 0 :=
  ⟨rfl, rfl, rfl, rfl, rfl, rfl, rfl, rfl, rfl, rfl, rfl, rfl, rfl, rfl, rfl,
    rfl, rfl, rfl⟩
